import Mathlib

/-!
Verification of the build-request compiler in `cmd/podman/images/build.go`
(the `build` command front end and `buildFlagsWrapperToOptions`).

The Go code is shallowly embedded: each pure computation of the source is a
Lean function over explicit flag state.  Filesystem, working-directory and
network dependent primitives (`filepath.Abs`, `filepath.Dir`, `utils.IsDir`,
`utils.FileExists`, `imagebuildah.TempDirForURL`) are abstracted as function
parameters gathered in `FrontEnv`, since their results depend on the ambient
system state and not on the logic of this file.
-/

namespace PodmanBuild

/-- Flag-changed state relevant to the squash/squash-all/layers conflict check
at the top of `build` (build.go lines 158-162).  `sc`, `sac`, `lc` are
`cmd.Flags().Changed("squash")`, `Changed("squash-all")`, `Changed("layers")`. -/
def conflict (sc sac lc : Bool) : Bool :=
  (sc && lc) || (sac && lc) || (sac && sc)

/-- The combined conflict error message of build.go line 161. -/
def conflictMsg : String :=
  "cannot specify --squash, --squash-all and --layers options together"

/-- Error when no context directory could be determined (build.go line 219). -/
def noCtxMsg : String :=
  "no context directory and no Containerfile specified"

/-- Error when the context path is not a directory (build.go line 222),
rendered with the Go `%q` quoting of the directory. -/
def notDirMsg (d : String) : String :=
  "context must be a directory: \"" ++ d ++ "\""

/-- Normalization of the `--file` flag values (build.go lines 165-172):
a literal `-` becomes the standard-input pseudo-path. -/
def normalizeFiles (files : List String) : List String :=
  files.map fun f => if f == "-" then "/dev/stdin" else f

/-- Model of Go `strings.HasPrefix(s, p)`, stated over the character
sequences of the two strings (for valid literals this agrees with the
byte-wise Go comparison). -/
def hasPref (s p : String) : Bool :=
  List.isPrefixOf p.data s.data

/-- Model of Go `strings.ToLower` restricted to basic-latin folding (the
full Unicode case table is outside the scope of this development; every
comparison the source performs after lowering is against a basic-latin
literal). -/
def lowerStr (s : String) : String :=
  String.mk (s.data.map Char.toLower)

/-- The remote-reference check of build.go lines 203-206: a container-file
path that starts with one of the four remote markers is skipped during
context discovery. -/
def looksRemote (p : String) : Bool :=
  hasPref p "http://" || hasPref p "https://" ||
  hasPref p "git://" || hasPref p "github.com/"

/-- Model of Go `filepath.Join(a, b)` as used on build.go lines 190, 225-228:
the two components joined by a separator (lexical cleaning is omitted; no
verified property depends on it). -/
def joinPath (a b : String) : String := a ++ "/" ++ b

/-- The system-dependent primitives `build` consults, abstracted as oracles:
`abs` is `filepath.Abs` (assumed to succeed), `dir` is `filepath.Dir`,
`isDir` is `utils.IsDir`, `fileExists` is `utils.FileExists`, and `fetch` is
`imagebuildah.TempDirForURL` returning `(tempDir, subDir)` with an empty
`tempDir` meaning "the argument was not a remote reference". -/
structure FrontEnv where
  abs : String → String
  dir : String → String
  isDir : String → Bool
  fileExists : String → Bool
  fetch : String → Except String (String × String)

/-- Context discovery from the declared container files when no positional
argument is given (build.go lines 199-216): the containing directory of the
first file that does not look remote, or `""` when none qualifies. -/
def findContextDir (env : FrontEnv) : List String → String
  | [] => ""
  | f :: rest =>
    if looksRemote f then findContextDir env rest
    else env.dir (env.abs f)

/-- Context resolution from the positional argument (build.go lines 176-198):
a remote fetch yields `tempDir/subDir`; a local argument resolves to its
absolute path.  Fetch failures are wrapped as on line 180. -/
def resolveContextFromArg (env : FrontEnv) (arg : String) : Except String String :=
  match env.fetch arg with
  | Except.error e =>
      Except.error ("error prepping temporary context directory: " ++ e)
  | Except.ok (tempDir, subDir) =>
      if tempDir ≠ "" then Except.ok (joinPath tempDir subDir)
      else Except.ok (env.abs arg)

/-- The default container-file discovery of build.go lines 224-230: probe for
`Containerfile` in the context directory, else fall back to `Dockerfile`
without checking that it exists. -/
def defaultFiles (env : FrontEnv) (contextDir : String) : List String :=
  if env.fileExists (joinPath contextDir "Containerfile") then
    [joinPath contextDir "Containerfile"]
  else
    [joinPath contextDir "Dockerfile"]

/-- The front end of `build` (build.go lines 157-230): conflict check, file
normalization, context resolution, context validation and container-file
defaulting.  On success it returns the resolved context directory and the
final container-file list. -/
def build (env : FrontEnv) (sc sac lc : Bool) (fileFlags : List String)
    (posArg : Option String) : Except String (String × List String) :=
  if conflict sc sac lc then Except.error conflictMsg
  else
    let containerFiles := normalizeFiles fileFlags
    let ctxE : Except String String :=
      match posArg with
      | some arg => resolveContextFromArg env arg
      | none => Except.ok (findContextDir env containerFiles)
    match ctxE with
    | Except.error e => Except.error e
    | Except.ok contextDir =>
      if contextDir = "" then Except.error noCtxMsg
      else if !(env.isDir contextDir) then Except.error (notDirMsg contextDir)
      else
        Except.ok (contextDir,
          if containerFiles.isEmpty then defaultFiles env contextDir
          else containerFiles)

/-- One pass of the squash translation of `buildFlagsWrapperToOptions`
(build.go lines 299-307, repeated verbatim on lines 348-356), on the
`(Squash, Layers)` pair.  The wrapper passed in is `&buildOpts` itself, so
the global read on line 299 sees the same field the block mutates; modelling
both blocks as the same function on one state is therefore faithful. -/
def squashStep (sc sac : Bool) (st : Bool × Bool) : Bool × Bool :=
  let st1 := if sc && st.1 then (false, false) else st
  if sac then (true, false) else st1

/-- The compiled `(Squash, Layers)` pair produced by
`buildFlagsWrapperToOptions`: starting from the parsed `--squash` value and
the effective `Layers` value (line 290), the translation block runs twice
(lines 299-307 and 348-356).  `_sav` is the parsed `--squash-all` value,
stored in `buildOpts.SquashAll` but never consulted by the source. -/
def compiledSquashLayers (sc sv sac _sav lv : Bool) : Bool × Bool :=
  squashStep sc sac (squashStep sc sac (sv, lv))

/-- The pull policy enumeration of the external `imagebuildah` package, as
consumed on build.go lines 267-277. -/
inductive PullPolicy where
  | ifMissing
  | always
  | never
  deriving DecidableEq, Repr

/-- Pull-policy resolution of build.go lines 267-277: default `PullIfMissing`;
`--pull` explicitly set and true gives `PullAlways`; `--pull-always` gives
`PullAlways`; `--pull-never` resets to `PullIfMissing` last. -/
def pullPolicy (pc pv pa pn : Bool) : PullPolicy :=
  let p := PullPolicy.ifMissing
  let p := if pc && pv then PullPolicy.always else p
  let p := if pa then PullPolicy.always else p
  if pn then PullPolicy.ifMissing else p

/-- `useLayers` of build.go lines 71-77: returns `"false"` when the
`BUILDAH_LAYERS` environment value lower-cases to `"false"` or equals `"0"`,
otherwise `"true"`.  An unset variable is the empty string, as with
`os.Getenv`. -/
def useLayers (envVal : String) : String :=
  if lowerStr envVal == "false" || envVal == "0" then "false" else "true"

/-- Modelled from the spec: the default value of the `--layers` flag is installed
from `useLayers` (build.go lines 117-123) and an explicit user-supplied flag
value overrides that default — the override itself is performed by the
external cobra/pflag parsing machinery, which is not part of this file. -/
def effectiveLayers (envVal : String) (layersChanged layersVal : Bool) : Bool :=
  if layersChanged then layersVal else useLayers envVal == "true"

/-- Go `strings.SplitN(arg, "=", 2)` as used on build.go line 282: the part
before the first `=`, and the remainder when a `=` is present. -/
def splitN2 (s : String) : String × Option String :=
  let k := s.data.takeWhile (fun c => c ≠ '=')
  match s.data.dropWhile (fun c => c ≠ '=') with
  | [] => (String.mk k, none)
  | _ :: v => (String.mk k, some (String.mk v))

/-- One `--build-arg` applied to the accumulated mapping (build.go lines
281-288): `KEY=VALUE` stores VALUE under KEY, a bare KEY deletes KEY.  The
Go map is modelled extensionally as a lookup function. -/
def applyBuildArg (m : String → Option String) (arg : String) :
    String → Option String :=
  match splitN2 arg with
  | (k, some v) => fun x => if x = k then some v else m x
  | (k, none) => fun x => if x = k then none else m x

/-- The `args` map of build.go lines 279-289: every `--build-arg` value is
applied in declaration order to an initially empty mapping. -/
def buildArgs (l : List String) : String → Option String :=
  l.foldl applyBuildArg (fun _ => none)

/-- The image-format family markers of the external buildah package
(`buildah.OCI`, `buildah.DOCKER`). -/
def OCI : String := "oci"

/-- See `OCI`. -/
def DOCKER : String := "docker"

/-- `buildah.OCIv1ImageManifest`, the OCI v1 manifest media type. -/
def OCIv1ImageManifest : String := "application/vnd.oci.image.manifest.v1+json"

/-- `buildah.Dockerv2ImageManifest`, the Docker v2 manifest media type. -/
def Dockerv2ImageManifest : String :=
  "application/vnd.docker.distribution.manifest.v2+json"

/-- Format resolution of build.go lines 379-388: the flag is lower-cased
(line 380 stores the lower-cased value back before the error is rendered
with `%q`), then matched by family marker. -/
def buildFormat (fmt : String) : Except String String :=
  let f := lowerStr fmt
  if hasPref f OCI then Except.ok OCIv1ImageManifest
  else if hasPref f DOCKER then Except.ok Dockerv2ImageManifest
  else Except.error ("unrecognized image type \"" ++ f ++ "\"")

/-- A concrete front-end environment for exercising closed instances of the
theorems: absolute paths are the identity, every containing directory is
`"/w"`, every path is a directory, every file exists, and every positional
argument is treated as local. -/
def envW : FrontEnv where
  abs := fun s => s
  dir := fun _ => "/w"
  isDir := fun _ => true
  fileExists := fun _ => true
  fetch := fun _ => Except.ok ("", "")

/-- Claim C2: with only `--squash` given (squash changed and true, squash-all
and layers untouched) the compiled pair is `squash = false, layers = false`;
with only `--squash-all` given the compiled pair is
`squash = true, layers = false`, for every stored squash-all value and every
effective layers baseline. -/
theorem squash_translation_compiled :
    ∀ sav lv sv : Bool,
      compiledSquashLayers true true false sav lv = (false, false) ∧
      compiledSquashLayers false sv true sav lv = (true, false) := by
  decide

/-- Claim C3: the compiled pull policy defaults to pull-if-missing, becomes
always-pull when `--pull` is explicitly true or `--pull-always` is set (and
`--pull-never` is not), and an explicit `--pull-never` resolves to the same
pull-if-missing policy as the default. -/
theorem pull_policy_resolution :
    ∀ pv pa pc : Bool,
      pullPolicy false pv false false = PullPolicy.ifMissing ∧
      pullPolicy true true pa false = PullPolicy.always ∧
      pullPolicy pc pv true false = PullPolicy.always ∧
      pullPolicy pc pv pa true = PullPolicy.ifMissing := by
  decide

/-- Claim C5: the squash/squash-all translation is idempotent — applying the
translation block a second time to an already-translated state leaves the
compiled squash and layers values unchanged, for every flag state. -/
theorem squash_translation_idempotent :
    ∀ (sc sac : Bool) (st : Bool × Bool),
      squashStep sc sac (squashStep sc sac st) = squashStep sc sac st := by
  decide

/-- Claim C4: with no explicit `--layers` flag the effective layers value is
disabled exactly when the `BUILDAH_LAYERS` value lower-cases to `"false"` or
equals `"0"` (unset is the empty string and yields enabled), and an explicit
`--layers` value always overrides the environment-derived default. -/
theorem layers_env_default (envVal : String) (lv : Bool) :
    (effectiveLayers envVal false lv = false ↔
      (lowerStr envVal = "false" ∨ envVal = "0")) ∧
    effectiveLayers envVal true lv = lv := by
  refine ⟨?_, rfl⟩
  by_cases h : lowerStr envVal = "false" ∨ envVal = "0"
  · have hb : (lowerStr envVal == "false" || envVal == "0") = true := by
      rcases h with h | h <;> simp [h]
    simp [effectiveLayers, useLayers, hb, h]
  · rw [not_or] at h
    have hb : (lowerStr envVal == "false" || envVal == "0") = false := by
      simp [h.1, h.2]
    simp [effectiveLayers, useLayers, hb, h.1, h.2]

/-- Claim C10: the squash-all translation fires on the mere fact that
`--squash-all` was changed, for either stored boolean value and any other
flag state, always compiling to `squash = true, layers = false`; whereas an
explicit `--squash=false` (squash changed, value false, squash-all
untouched) leaves the compiled squash and layers values untouched. -/
theorem squash_all_ignores_value :
    ∀ sc sv sav lv : Bool,
      compiledSquashLayers sc sv true sav lv = (true, false) ∧
      compiledSquashLayers true false false sav lv = (false, lv) := by
  decide

/-- Claim C1: whenever at least two of `--squash`, `--squash-all` and
`--layers` are explicitly set, `build` fails with the single conflict error,
whatever the environment, files and positional argument are — in particular
the outcome is independent of every filesystem oracle, so no normalization,
context resolution or other work can influence it. -/
theorem conflict_aborts (env : FrontEnv) (sc sac lc : Bool)
    (fileFlags : List String) (posArg : Option String)
    (h : (sc = true ∧ lc = true) ∨ (sac = true ∧ lc = true) ∨
      (sac = true ∧ sc = true)) :
    build env sc sac lc fileFlags posArg = Except.error conflictMsg := by
  have hc : conflict sc sac lc = true := by
    rcases h with ⟨h1, h2⟩ | ⟨h1, h2⟩ | ⟨h1, h2⟩ <;> subst h1 <;> subst h2 <;>
      simp [conflict]
  simp [build, hc]

/-- Closed instance of `conflict_aborts` at a concrete input. -/
theorem conflict_aborts_witness :
    build envW true true false [] none = Except.error conflictMsg :=
  conflict_aborts envW true true false [] none (Or.inr (Or.inr ⟨rfl, rfl⟩))

/-- Helper: `findContextDir` picks the containing directory of the first
file that does not look remote, and `""` when there is none. -/
lemma findContextDir_eq_find (env : FrontEnv) (l : List String) :
    findContextDir env l =
      (match l.find? (fun f => !looksRemote f) with
       | none => ""
       | some f => env.dir (env.abs f)) := by
  induction l with
  | nil => rfl
  | cons a t ih =>
    by_cases h : looksRemote a = true
    · have hp : ¬ ((fun f => !looksRemote f) a = true) := by simp [h]
      rw [@List.find?_cons_of_neg String (fun f => !looksRemote f) a t hp]
      simpa [findContextDir, h] using ih
    · have hp : ((fun f => !looksRemote f) a = true) := by
        simp [Bool.eq_false_iff.mpr h]
      rw [@List.find?_cons_of_pos String (fun f => !looksRemote f) a t hp]
      simp [findContextDir, h]

/-- Claim C6: with no positional argument and no flag conflict, the context
directory is the containing directory of the first declared (normalized)
container file that does not look remote; when every file looks remote or
none is declared the result is the "no context directory" error, and when
the determined path is not a directory the result is the "context must be a
directory" error.  The hypothesis on `dir` reflects that Go `filepath.Dir`
never returns the empty string. -/
theorem context_from_first_local_file (env : FrontEnv) (sc sac lc : Bool)
    (files : List String) (hdir : ∀ s, env.dir s ≠ "")
    (hc : conflict sc sac lc = false) :
    build env sc sac lc files none =
      (match (normalizeFiles files).find? (fun f => !looksRemote f) with
       | none => Except.error noCtxMsg
       | some f =>
         if env.isDir (env.dir (env.abs f)) then
           Except.ok (env.dir (env.abs f), normalizeFiles files)
         else Except.error (notDirMsg (env.dir (env.abs f)))) := by
  cases hF : (normalizeFiles files).find? (fun f => !looksRemote f) with
  | none =>
    simp [build, hc, findContextDir_eq_find, hF]
  | some f =>
    have hne : env.dir (env.abs f) ≠ "" := hdir _
    have hmem : f ∈ normalizeFiles files := List.mem_of_find?_eq_some hF
    have hnil : (normalizeFiles files).isEmpty = false := by
      cases hl : normalizeFiles files with
      | nil => rw [hl] at hmem; cases hmem
      | cons x xs => rfl
    by_cases hd : env.isDir (env.dir (env.abs f)) = true
    · simp [build, hc, findContextDir_eq_find, hF, hne, hd, hnil]
    · simp [build, hc, findContextDir_eq_find, hF, hne,
        Bool.eq_false_iff.mpr hd, hnil]

/-- Closed instance of `context_from_first_local_file` at a concrete input:
the first declared file is remote, so the context comes from the second. -/
theorem context_from_first_local_file_witness :
    build envW false false false
      ["http://example.com/Containerfile", "Containerfile"] none =
      Except.ok ("/w", ["http://example.com/Containerfile", "Containerfile"]) := by
  have h := context_from_first_local_file envW false false false
    ["http://example.com/Containerfile", "Containerfile"]
    (fun s => show ("/w" : String) ≠ "" by decide) (by decide)
  rw [h]
  rfl

/-- Claim C7: whenever the `build` front end succeeds, the container-file
list is non-empty; and when no `--file` flag was declared it is the single
entry `contextDir/Containerfile` if that file exists, else the single entry
`contextDir/Dockerfile`, the fallback being taken without an existence
check. -/
theorem containerfiles_nonempty (env : FrontEnv) (sc sac lc : Bool)
    (files : List String) (posArg : Option String) (ctx : String)
    (cf : List String)
    (h : build env sc sac lc files posArg = Except.ok (ctx, cf)) :
    cf ≠ [] ∧
      (files = [] →
        cf = if env.fileExists (joinPath ctx "Containerfile") then
            [joinPath ctx "Containerfile"]
          else [joinPath ctx "Dockerfile"]) := by
  by_cases hco : conflict sc sac lc = true
  · simp [build, hco] at h
  · have hcofa : conflict sc sac lc = false := Bool.eq_false_iff.mpr hco
    simp only [build, hcofa, Bool.false_eq_true, if_false] at h
    split at h
    · exact absurd h (by simp)
    · rename_i cdir heq
      split at h
      · exact absurd h (by simp)
      · split at h
        · exact absurd h (by simp)
        · split at h
          · rename_i hie
            simp only [Except.ok.injEq, Prod.mk.injEq] at h
            obtain ⟨hctx, hval⟩ := h
            subst hctx
            constructor
            · intro hn
              rw [hn] at hval
              revert hval
              unfold defaultFiles
              by_cases hex : env.fileExists (joinPath cdir "Containerfile") = true <;>
                simp [hex]
            · intro _
              rw [← hval]
              simp [defaultFiles]
          · rename_i hie
            simp only [Except.ok.injEq, Prod.mk.injEq] at h
            obtain ⟨hctx, hval⟩ := h
            subst hctx
            constructor
            · intro hn
              rw [hn] at hval
              exact hie (by rw [hval]; rfl)
            · intro hfe
              subst hfe
              exact absurd (show (normalizeFiles ([] : List String)).isEmpty = true
                from rfl) hie

/-- Closed instance of `containerfiles_nonempty` at a concrete input: a
local positional context, no declared files, `Containerfile` present. -/
theorem containerfiles_nonempty_witness :
    (["/ctx/Containerfile"] : List String) ≠ [] ∧
      (([] : List String) = [] →
        (["/ctx/Containerfile"] : List String) =
          if envW.fileExists (joinPath "/ctx" "Containerfile") then
            [joinPath "/ctx" "Containerfile"]
          else [joinPath "/ctx" "Dockerfile"]) :=
  containerfiles_nonempty envW false false false [] (some "/ctx") "/ctx"
    ["/ctx/Containerfile"] (by rfl)

/-- Helper: a left fold of `applyBuildArg` is decided, per key, by the last
argument whose key part matches, searched from the right. -/
lemma foldl_applyBuildArg (key : String) :
    ∀ (l : List String) (m : String → Option String),
      l.foldl applyBuildArg m key =
        (match l.reverse.find? (fun a => (splitN2 a).1 == key) with
         | some a => (splitN2 a).2
         | none => m key) := by
  intro l
  induction l with
  | nil => intro m; rfl
  | cons a t ih =>
    intro m
    rw [List.foldl_cons, ih (applyBuildArg m a), List.reverse_cons,
      List.find?_append]
    cases hF : t.reverse.find? (fun a => (splitN2 a).1 == key) with
    | some b => rfl
    | none =>
      rcases hsp : splitN2 a with ⟨k, v?⟩
      by_cases hpa : (k == key) = true
      · have hk : key = k := (eq_of_beq hpa).symm
        cases v? <;>
          simp [applyBuildArg, hsp, hpa, hk, List.find?_singleton]
      · have hk : ¬ key = k := fun hh => hpa (by subst hh; simp)
        cases v? <;>
          simp [applyBuildArg, hsp, hpa, hk, List.find?_singleton]

/-- Claim C8: processing the `--build-arg` values in declaration order into
one mapping means the lookup of any key is decided by the last value whose
key part matches — its VALUE when it has the form KEY=VALUE, and absence
(the prior mapping removed) when it is a bare KEY without `=`. -/
theorem build_args_last_wins (l : List String) (key : String) :
    buildArgs l key =
      (match l.reverse.find? (fun a => (splitN2 a).1 == key) with
       | some a => (splitN2 a).2
       | none => none) :=
  foldl_applyBuildArg key l (fun _ => none)

/-- Claim C9: a lower-cased format with the OCI family marker compiles to
the OCI v1 manifest type, one with the Docker family marker compiles to the
Docker v2 manifest type, and every other value fails with the
"unrecognized image type" error. -/
theorem format_family_resolution (fmt : String) :
    (hasPref (lowerStr fmt) OCI = true →
      buildFormat fmt = Except.ok OCIv1ImageManifest) ∧
    (hasPref (lowerStr fmt) OCI = false →
      hasPref (lowerStr fmt) DOCKER = true →
      buildFormat fmt = Except.ok Dockerv2ImageManifest) ∧
    (hasPref (lowerStr fmt) OCI = false →
      hasPref (lowerStr fmt) DOCKER = false →
      buildFormat fmt =
        Except.error ("unrecognized image type \"" ++ lowerStr fmt ++ "\"")) := by
  refine ⟨fun h1 => ?_, fun h1 h2 => ?_, fun h1 h2 => ?_⟩
  · simp [buildFormat, h1]
  · simp [buildFormat, h1, h2]
  · simp [buildFormat, h1, h2]

/-- Closed instances of `format_family_resolution`: `--format docker`
resolves to the Docker v2 manifest type and `--format banana` is rejected. -/
theorem format_family_resolution_witness :
    buildFormat "docker" = Except.ok Dockerv2ImageManifest ∧
    buildFormat "banana" = Except.error "unrecognized image type \"banana\"" := by
  constructor
  · exact (format_family_resolution "docker").2.1 (by decide) (by decide)
  · exact (format_family_resolution "banana").2.2 (by decide) (by decide)

end PodmanBuild
